import Mathlib

/-!
Shallow embedding of the habit-tracker front-end (`src/static/js/app.js`,
first document, lines 1-280) in Lean 4.

Modelling conventions:
* JS numbers that are only ever tested with `Number.isFinite` and then used
  arithmetically are modelled as `Option ℚ`: `none` stands for an absent
  field or a non-finite value (`undefined`, `NaN`, `±Infinity`), `some q`
  for a finite value.  Exact rational arithmetic coincides with float
  arithmetic on every value the theorems evaluate.
* Habit identifiers are JS numbers, modelled as `Int`; JS truthiness of an
  id (`if (currentHabitId)`) is `truthyId`: `null` and `0` are falsy.
* The DOM is modelled as explicit fields of an `App` state record: element
  presence flags mirror the `if (!el) return` guards, and the attributes
  the code touches (class list membership, `style.display`, `aria-hidden`,
  `dataset.state`, text content, the selector's option list) are fields.
* `showToast` appends to a `toasts` trace (the call is what the theorems
  count; the toast container DOM node is elided).  `console.error` bumps a
  `logs` counter.  Each progress fetch issued by `loadHabitProgress` is
  recorded in the `progressFetches` trace as (habit id, days).
* Async functions are `Env → App → Except String App`: the `Except` value
  is what the returned promise does (`.ok` = resolve, `.error` = reject);
  a thrown error carries no state because every modelled `catch` receives
  the current mutable state explicitly.  The network is an `Env` record
  giving each endpoint's outcome.
-/

/-- Visibility states of the chart area. -/
inductive VState where
  | empty
  | loading
  | ready
  | error
deriving DecidableEq

/-- One option element of the habit selector. -/
structure SelOpt where
  value : String
  text : String
  disabled : Bool
  selectedFlag : Bool
deriving DecidableEq

/-- Rendered fields of one habit list item (built by `renderHabits`). -/
structure HabitView where
  borderLeft : String
  title : String
  badgeClass : String
  badgeText : String
  metaText : String
  idealWidth : String
  actualWidth : String
  actualBackground : String
  completeBtnText : String
deriving DecidableEq

/-- The mutable front-end state: module-level variables plus the DOM
fields the code reads or writes. -/
structure App where
  habitChart : Option Bool
  currentHabitId : Option Int
  currentRange : Int
  canvasPresent : Bool
  placeholderPresent : Bool
  selectPresent : Bool
  habitListPresent : Bool
  rangeContainerPresent : Bool
  placeholderText : String
  placeholderState : Option VState
  placeholderAria : Option String
  placeholderHidden : Bool
  canvasDisplay : Option String
  canvasAria : Option String
  selectOptions : List SelOpt
  selectValue : Option String
  selectDisabled : Bool
  habitItems : List HabitView
  habitListEmptyState : Bool
  rangeButtons : List (Int × Bool × Bool)
  visionField : String
  focusField : String
  summaryDisplay : Option String
  visionCopy : String
  focusCopy : String
  journalItems : List String
  journalInput : String
  toasts : List (String × String)
  logs : Nat
  progressFetches : List (Int × Int)
deriving DecidableEq

/-- JS truthiness of a nullable numeric id: `null` and `0` are falsy. -/
def truthyId : Option Int → Bool
  | none => false
  | some n => n != 0

/-- `const chartRanges = [7, 14, 30, 90];` -/
def chartRanges : List Int := [7, 14, 30, 90]

/-- `const DEFAULT_CHART_MESSAGE = ...;` -/
def DEFAULT_CHART_MESSAGE : String :=
  "Add a habit to see its ideal vs actual progress."

/-- `function updateChartVisibility(state, message = '')` (app.js 21-38).
An empty `msg` models both an omitted argument and `''` (both falsy). -/
def updateChartVisibility (s : App) (st : VState) (msg : String) : App :=
  if !(s.canvasPresent && s.placeholderPresent) then s
  else
    let s1 := if msg != "" then { s with placeholderText := msg } else s
    let s2 := { s1 with
      placeholderState := some st
      placeholderAria := some (if st = VState.ready then "true" else "false") }
    if st = VState.ready then
      { s2 with
        placeholderHidden := true
        canvasDisplay := some "block"
        canvasAria := none }
    else
      let s3 := { s2 with
        placeholderHidden := false
        canvasDisplay := some "none"
        canvasAria := some "true" }
      if (st = VState.empty || st = VState.error) && s3.habitChart.isSome then
        { s3 with habitChart := none }
      else s3

/-- `function showToast(message, tone = 'info')` (app.js 40-49); the trace
records the call, the container node and timers are elided. -/
def showToast (s : App) (msg tone : String) : App :=
  { s with toasts := s.toasts ++ [(msg, tone)] }

/-- The placeholder is visible iff it does not carry the `hidden` class. -/
def placeholderVisible (s : App) : Bool := !s.placeholderHidden

/-- The canvas is visible iff its inline display style is `block`
(after any `updateChartVisibility` call it is `block` or `none`). -/
def canvasVisible (s : App) : Bool := s.canvasDisplay == some "block"

/-- C2: for every state in {empty, loading, ready, error} and every
message, after `updateChartVisibility` returns (with both the canvas and
the placeholder present), exactly one of the chart canvas and the
placeholder is visible — never both visible and never both hidden. -/
theorem updateChartVisibility_exclusive (s : App) (st : VState) (msg : String)
    (hc : s.canvasPresent = true) (hp : s.placeholderPresent = true) :
    placeholderVisible (updateChartVisibility s st msg)
      = !canvasVisible (updateChartVisibility s st msg) := by
  cases st <;>
    by_cases hm : (msg != "") = true <;>
    simp [updateChartVisibility, placeholderVisible, canvasVisible, hc, hp, hm] <;>
    split <;> simp

/-- C2 witness at a concrete state. -/
theorem updateChartVisibility_exclusive_witness :
    placeholderVisible (updateChartVisibility
        { habitChart := none, currentHabitId := none, currentRange := 30,
          canvasPresent := true, placeholderPresent := true,
          selectPresent := true, habitListPresent := true,
          rangeContainerPresent := true,
          placeholderText := "", placeholderState := none,
          placeholderAria := none, placeholderHidden := false,
          canvasDisplay := none, canvasAria := none,
          selectOptions := [], selectValue := none, selectDisabled := false,
          habitItems := [], habitListEmptyState := false, rangeButtons := [],
          visionField := "", focusField := "", summaryDisplay := none,
          visionCopy := "", focusCopy := "", journalItems := [],
          journalInput := "", toasts := [], logs := 0, progressFetches := [] }
        VState.ready "")
      = !canvasVisible (updateChartVisibility
        { habitChart := none, currentHabitId := none, currentRange := 30,
          canvasPresent := true, placeholderPresent := true,
          selectPresent := true, habitListPresent := true,
          rangeContainerPresent := true,
          placeholderText := "", placeholderState := none,
          placeholderAria := none, placeholderHidden := false,
          canvasDisplay := none, canvasAria := none,
          selectOptions := [], selectValue := none, selectDisabled := false,
          habitItems := [], habitListEmptyState := false, rangeButtons := [],
          visionField := "", focusField := "", summaryDisplay := none,
          visionCopy := "", focusCopy := "", journalItems := [],
          journalInput := "", toasts := [], logs := 0, progressFetches := [] }
        VState.ready "") :=
  updateChartVisibility_exclusive _ VState.ready "" rfl rfl

/-- C9: the visibility setter is idempotent — calling it twice in a row
with the same state and message yields the same state (all DOM visibility
fields, aria attributes and the chart handle included) as calling it
once. -/
theorem updateChartVisibility_idempotent (s : App) (st : VState) (msg : String) :
    updateChartVisibility (updateChartVisibility s st msg) st msg
      = updateChartVisibility s st msg := by
  by_cases hpres : (s.canvasPresent && s.placeholderPresent) = true
  · cases st <;>
      by_cases hmsg : (msg != "") = true <;>
      simp [updateChartVisibility, hpres, hmsg] <;>
      split <;> simp_all
  · simp [updateChartVisibility, hpres]

/-- C10: when `updateChartVisibility` is called with the message omitted
or equal to the empty string, the placeholder's text content is left
unchanged; concretely, entering `error` with message "Boom" and then
`empty` with no message leaves the stale text "Boom" on display in state
`empty`. -/
theorem updateChartVisibility_empty_message_keeps_text :
    (∀ (s : App) (st : VState),
      (updateChartVisibility s st "").placeholderText = s.placeholderText)
    ∧ (updateChartVisibility (updateChartVisibility
        { habitChart := none, currentHabitId := none, currentRange := 30,
          canvasPresent := true, placeholderPresent := true,
          selectPresent := true, habitListPresent := true,
          rangeContainerPresent := true,
          placeholderText := "", placeholderState := none,
          placeholderAria := none, placeholderHidden := false,
          canvasDisplay := none, canvasAria := none,
          selectOptions := [], selectValue := none, selectDisabled := false,
          habitItems := [], habitListEmptyState := false, rangeButtons := [],
          visionField := "", focusField := "", summaryDisplay := none,
          visionCopy := "", focusCopy := "", journalItems := [],
          journalInput := "", toasts := [], logs := 0, progressFetches := [] }
        VState.error "Boom") VState.empty "").placeholderText = "Boom"
    ∧ (updateChartVisibility (updateChartVisibility
        { habitChart := none, currentHabitId := none, currentRange := 30,
          canvasPresent := true, placeholderPresent := true,
          selectPresent := true, habitListPresent := true,
          rangeContainerPresent := true,
          placeholderText := "", placeholderState := none,
          placeholderAria := none, placeholderHidden := false,
          canvasDisplay := none, canvasAria := none,
          selectOptions := [], selectValue := none, selectDisabled := false,
          habitItems := [], habitListEmptyState := false, rangeButtons := [],
          visionField := "", focusField := "", summaryDisplay := none,
          visionCopy := "", focusCopy := "", journalItems := [],
          journalInput := "", toasts := [], logs := 0, progressFetches := [] }
        VState.error "Boom") VState.empty "").placeholderState
      = some VState.empty := by
  refine ⟨fun s st => ?_, by decide, by decide⟩
  by_cases hpres : (s.canvasPresent && s.placeholderPresent) = true
  · cases st <;> simp [updateChartVisibility, hpres] <;> split <;> simp
  · simp [updateChartVisibility, hpres]

/-- A habit payload as the front-end consumes it (JSON from the server).
Numeric aggregate fields are `Option ℚ`: `none` = absent or non-finite. -/
structure Habit where
  id : Int
  name : String
  color : Option String
  completed : Bool
  target_per_week : Option ℚ
  streak : Option ℚ
  best_streak : Option ℚ
  score : Option ℚ
deriving DecidableEq

/-- The `habits.forEach` loop of `updateHabitSelectOptions` (app.js
197-201): `previous` is the value captured before the loop, the first
component threads the live `currentHabitId`, the second accumulates the
option elements. -/
def selLoop (previous : Option Int) :
    Option Int → List SelOpt → List Habit → Option Int × List SelOpt
  | cur, opts, [] => (cur, opts)
  | cur, opts, h :: rest =>
    let cond := (truthyId previous && previous == some h.id)
      || (!truthyId previous && !truthyId cur)
    let cur' := if cond then some h.id else cur
    selLoop previous cur' (opts ++ [⟨toString h.id, h.name, false, cond⟩]) rest

/-- `function updateHabitSelectOptions(habits)` (app.js 194-209). -/
def updateHabitSelectOptions (s : App) (habits : List Habit) : App :=
  if !s.selectPresent then s
  else
    let previous := s.currentHabitId
    let s1 := { s with selectOptions := [], selectValue := none }
    let res := selLoop previous s1.currentHabitId [] habits
    let s2 := { s1 with currentHabitId := res.1, selectOptions := res.2 }
    let s3 :=
      if habits.length != 0 then
        let found := habits.any (fun h => some h.id == s2.currentHabitId)
        if !found then
          match habits with
          | [] => s2
          | h0 :: _ => { s2 with
                         currentHabitId := some h0.id,
                         selectValue := some (toString h0.id) }
        else s2
      else
        { s2 with
          selectOptions := s2.selectOptions ++
            [⟨"No habits yet", "No habits yet", true, true⟩],
          currentHabitId := none }
    { s3 with selectDisabled := habits.length == 0 }

/-- C1: after every run of `updateHabitSelectOptions` (selector present):
an empty collection leaves the current-habit identifier null and the
selector holding exactly the one disabled placeholder option; a non-empty
collection leaves the identifier equal to the id of some member. -/
theorem updateHabitSelectOptions_reconciles (s : App) (habits : List Habit)
    (hsel : s.selectPresent = true) :
    (habits = [] →
      (updateHabitSelectOptions s habits).currentHabitId = none
      ∧ (updateHabitSelectOptions s habits).selectOptions
          = [⟨"No habits yet", "No habits yet", true, true⟩])
    ∧ (habits ≠ [] →
      habits.any
        (fun h => some h.id == (updateHabitSelectOptions s habits).currentHabitId)
        = true) := by
  constructor
  · intro he; subst he
    simp [updateHabitSelectOptions, hsel, selLoop]
  · intro hne
    have hlen : (habits.length != 0) = true := by
      cases habits with
      | nil => exact absurd rfl hne
      | cons a l => simp
    simp only [updateHabitSelectOptions, hsel, Bool.not_true, hlen, if_true,
      Bool.false_eq_true, if_false]
    by_cases hf : (habits.any fun h =>
        some h.id == (selLoop s.currentHabitId s.currentHabitId [] habits).1) = true
    · simp only [hf, Bool.not_true, Bool.false_eq_true, if_false]
    · simp only [Bool.not_eq_true] at hf
      simp only [hf, Bool.not_false, if_true]
      cases habits with
      | nil => exact absurd rfl hne
      | cons h0 rest => simp

/-- A blank concrete state used by witnesses and counterexamples. -/
def blankApp : App :=
  { habitChart := none, currentHabitId := none, currentRange := 30,
    canvasPresent := true, placeholderPresent := true,
    selectPresent := true, habitListPresent := true,
    rangeContainerPresent := true,
    placeholderText := "", placeholderState := none,
    placeholderAria := none, placeholderHidden := false,
    canvasDisplay := none, canvasAria := none,
    selectOptions := [], selectValue := none, selectDisabled := false,
    habitItems := [], habitListEmptyState := false, rangeButtons := [],
    visionField := "", focusField := "", summaryDisplay := none,
    visionCopy := "", focusCopy := "", journalItems := [],
    journalInput := "", toasts := [], logs := 0, progressFetches := [] }

/-- A concrete habit payload with a given id and name and no aggregate
fields. -/
def bareHabit (i : Int) (nm : String) : Habit :=
  { id := i, name := nm, color := none, completed := false,
    target_per_week := none, streak := none, best_streak := none,
    score := none }

/-- C1 witness: reconciling the blank state against the empty collection
and against a one-habit collection. -/
theorem updateHabitSelectOptions_reconciles_witness :
    ((updateHabitSelectOptions blankApp []).currentHabitId = none
      ∧ (updateHabitSelectOptions blankApp []).selectOptions
          = [⟨"No habits yet", "No habits yet", true, true⟩])
    ∧ [bareHabit 1 "Meditate"].any
        (fun h => some h.id ==
          (updateHabitSelectOptions blankApp [bareHabit 1 "Meditate"]).currentHabitId)
        = true :=
  ⟨(updateHabitSelectOptions_reconciles blankApp [] rfl).1 rfl,
   (updateHabitSelectOptions_reconciles blankApp [bareHabit 1 "Meditate"] rfl).2
     (by decide)⟩

/-- If the pre-loop `currentHabitId` equals the captured `previous` value
`some p` with `p ≠ 0`, the `forEach` loop of `updateHabitSelectOptions`
never moves it: each iteration either re-selects `p`'s own option or
leaves the id untouched. -/
theorem selLoop_keeps_truthy (p : Int) (hp : p ≠ 0) :
    ∀ (habits : List Habit) (opts : List SelOpt),
      (selLoop (some p) (some p) opts habits).1 = some p := by
  intro habits
  induction habits with
  | nil => intro opts; rfl
  | cons h rest ih =>
    intro opts
    have ht : truthyId (some p) = true := by
      simp [truthyId, hp]
    by_cases hid : h.id = p
    · simp only [selLoop, ht, hid, Bool.not_true, Bool.false_and, Bool.or_false,
        Bool.and_self, beq_self_eq_true]
      simpa [hid] using ih _
    · have hne : (some p == some h.id) = false := by
        have hq : p ≠ h.id := fun hc => hid hc.symm
        simp [hq]
      simp only [selLoop, ht, hne, Bool.not_true, Bool.false_and, Bool.or_false,
        Bool.and_false, Bool.true_and, Bool.false_eq_true, if_false]
      exact ih _

/-- Helper: a nonzero current id that occurs in the collection survives
`updateHabitSelectOptions` unchanged. -/
theorem keepSelection_truthy (s : App)
    (habits : List Habit) (p : Int) (hp : p ≠ 0)
    (hcur : s.currentHabitId = some p)
    (hmem : habits.any (fun h => h.id == p) = true) :
    (updateHabitSelectOptions s habits).currentHabitId = some p := by
  by_cases hsel : s.selectPresent = true
  · have hne : habits ≠ [] := by
      intro he; subst he; simp at hmem
    have hlen : (habits.length != 0) = true := by
      cases habits with
      | nil => exact absurd rfl hne
      | cons a l => simp
    have hloop : (selLoop s.currentHabitId s.currentHabitId [] habits).1 = some p := by
      rw [hcur]; exact selLoop_keeps_truthy p hp habits []
    have hfound : (habits.any fun h =>
        some h.id == (selLoop s.currentHabitId s.currentHabitId [] habits).1) = true := by
      rw [hloop]
      simp only [List.any_eq_true] at hmem ⊢
      obtain ⟨h, hh, hid⟩ := hmem
      exact ⟨h, hh, by simpa using hid⟩
    simp only [updateHabitSelectOptions, hsel, Bool.not_true, hlen, if_true,
      Bool.false_eq_true, if_false, hfound]
    exact hloop
  · have hsel2 : s.selectPresent = false := by
      simpa using hsel
    simp [updateHabitSelectOptions, hsel2, hcur]

/-- C5 (amended): for every non-empty habit collection and every nonzero
(JS-truthy) current-habit identifier equal to the id of some habit in the
collection, `updateHabitSelectOptions` leaves the current-habit
identifier unchanged. -/
theorem updateHabitSelectOptions_keeps_selection (s : App)
    (habits : List Habit) (p : Int) (hp : p ≠ 0)
    (hcur : s.currentHabitId = some p)
    (hmem : habits.any (fun h => h.id == p) = true) :
    (updateHabitSelectOptions s habits).currentHabitId = some p :=
  keepSelection_truthy s habits p hp hcur hmem

/-- C5 witness: a kept selection at a concrete input. -/
theorem updateHabitSelectOptions_keeps_selection_witness :
    (updateHabitSelectOptions
        { blankApp with currentHabitId := some 2 }
        [bareHabit 1 "Run", bareHabit 2 "Read"]).currentHabitId = some 2 :=
  updateHabitSelectOptions_keeps_selection _ _ 2 (by decide) rfl (by decide)

/-- C5 counterexample: with habit ids 0 and 1 and the identifier 0 (the
id of the first habit, but falsy in JS), the claim as stated fails: the
reconciliation moves the identifier to 1 instead of keeping 0. -/
theorem updateHabitSelectOptions_moves_zero_id :
    ({ blankApp with currentHabitId := some 0 } : App).currentHabitId = some 0
    ∧ [bareHabit 0 "Run", bareHabit 1 "Read"].any (fun h => h.id == 0) = true
    ∧ (updateHabitSelectOptions
        { blankApp with currentHabitId := some 0 }
        [bareHabit 0 "Run", bareHabit 1 "Read"]).currentHabitId = some 1 := by
  refine ⟨rfl, by decide, ?_⟩
  decide

/-- `Math.min` on two exact values. -/
def jsMin (a b : ℚ) : ℚ := if a ≤ b then a else b

/-- `Math.max` on two exact values. -/
def jsMax (a b : ℚ) : ℚ := if a ≤ b then b else a

/-- `Math.min` on integers. -/
def jsMinI (a b : Int) : Int := if a ≤ b then a else b

/-- `Math.max` on integers. -/
def jsMaxI (a b : Int) : Int := if a ≤ b then b else a

/-- Exact division of a rational by a positive natural, computed on the
numerator/denominator pair (the field operations of `ℚ` do not evaluate
inside the kernel, `mkRat` does). -/
def ratDivNat (q : ℚ) (n : Nat) : ℚ := mkRat q.num (q.den * n)

/-- Exact product of a rational with a natural, computed on the
numerator/denominator pair. -/
def ratMulNat (q : ℚ) (n : Nat) : ℚ := mkRat (q.num * (n : Int)) q.den

/-- `Math.round` on an exact value `q = num/den`: JS rounds half toward
positive infinity, i.e. takes `⌊q + 1/2⌋ = ⌊(2 num + den) / (2 den)⌋`,
here computed by floor division on integers. -/
def jsRound (q : ℚ) : Int := (2 * q.num + (q.den : Int)).fdiv (2 * (q.den : Int))

/-- `Number.prototype.toFixed(1)` on an exact value `q = num/den`: ES
semantics take the sign apart, pick the count of tenths closest to the
magnitude `|q|` (rounding ties up, i.e. `⌊10 |q| + 1/2⌋ =
⌊(20 |num| + den) / (2 den)⌋`), and print one digit after the point. -/
def toFixed1 (q : ℚ) : String :=
  let n := ((20 * (q.num.natAbs : Int) + (q.den : Int)).fdiv (2 * (q.den : Int))).toNat
  (if q.num < 0 then "-" else "") ++ toString (n / 10) ++ "." ++ toString (n % 10)

/-- JS template interpolation of a number.  The theorems only evaluate it
on integral values, where JS prints the plain decimal; the non-integral
fallback (never exercised by any theorem) keeps the function total. -/
def jsNumToString (q : ℚ) : String :=
  if q.den = 1 then toString q.num
  else toString q.num ++ " / " ++ toString q.den

/-- `value || fallback` on a nullable string: JS falsiness covers both a
missing value and the empty string. -/
def colorOr (c : Option String) (d : String) : String :=
  match c with
  | some s => if s = "" then d else s
  | none => d

/-- `const safeTarget = Number.isFinite(habit.target_per_week) &&
habit.target_per_week > 0 ? habit.target_per_week : 7;` (app.js 170). -/
def safeTarget (h : Habit) : ℚ :=
  match h.target_per_week with
  | some q => if 0 < q then q else 7
  | none => 7

/-- `const safeStreak = ...` (app.js 171). -/
def safeStreak (h : Habit) : ℚ :=
  match h.streak with
  | some q => if 0 ≤ q then q else 0
  | none => 0

/-- `const safeBest = ...` (app.js 172). -/
def safeBest (h : Habit) : ℚ :=
  match h.best_streak with
  | some q => if 0 ≤ q then q else 0
  | none => 0

/-- `const safeScore = Number.isFinite(habit.score) ? habit.score : 0;`
(app.js 173). -/
def safeScore (h : Habit) : ℚ :=
  match h.score with
  | some q => q
  | none => 0

/-- The per-habit list item built by the `habits.forEach` body of
`renderHabits` (app.js 161-191). -/
def habitView (h : Habit) : HabitView :=
  { borderLeft := "4px solid " ++ colorOr h.color "#2f7cff"
    title := h.name
    badgeClass := "badge " ++ (if h.completed then "success" else "warning")
    badgeText := if h.completed then "Completed today" else "Pending today"
    metaText := "Target: " ++ jsNumToString (safeTarget h) ++ "/week • Streak: "
      ++ jsNumToString (safeStreak h) ++ " (best " ++ jsNumToString (safeBest h)
      ++ ") • Lifetime score: " ++ toFixed1 (safeScore h) ++ "%"
    idealWidth := toString (jsRound (ratMulNat (jsMin 1 (jsMax 0 (ratDivNat (safeTarget h) 7))) 100)) ++ "%"
    actualWidth := toString (jsMinI 100 (jsMaxI 0 (jsRound (safeScore h)))) ++ "%"
    actualBackground := "linear-gradient(90deg, " ++ colorOr h.color "#54e0a6"
      ++ ", rgba(84, 224, 166, 0.35))"
    completeBtnText := if h.completed then "Undo today" else "Mark complete today" }

/-- `function renderHabits(habits)` (app.js 154-192). -/
def renderHabits (s : App) (habits : List Habit) : App :=
  if !s.habitListPresent then s
  else if habits.isEmpty then
    let s1 := { s with habitItems := [], habitListEmptyState := true }
    updateChartVisibility s1 VState.empty DEFAULT_CHART_MESSAGE
  else
    { s with habitItems := habits.map habitView, habitListEmptyState := false }

/-- C6 counterexample: a habit with the finite score 49.6 renders an
actual-bar width of "50%" (the code applies `Math.round` before
clamping), while the score clamped to [0,100] is 49.6 itself — so the
rendered width does not equal the clamped score. -/
theorem actualWidth_not_clamped_score :
    mkRat 248 5 = 248 / 5
    ∧ (habitView { bareHabit 1 "Run" with score := some (mkRat 248 5) }).actualWidth
        = "50%"
    ∧ min (100 : ℚ) (max 0 (248 / 5)) = 248 / 5
    ∧ ((50 : ℚ) = 248 / 5 → False) := by
  refine ⟨by norm_num [mkRat, Rat.normalize], by decide, by norm_num, by norm_num⟩

/-- C6 (amended): the rendered actual-progress bar width equals the
habit's score (0 when non-finite) rounded with `Math.round` and then
clamped to [0,100], as a percent string; in particular score = 150
renders exactly "100%" and score = -5 renders "0%". -/
theorem actualWidth_rounds_then_clamps (h : Habit) :
    (habitView h).actualWidth
        = toString (jsMinI 100 (jsMaxI 0 (jsRound (safeScore h)))) ++ "%"
    ∧ (habitView { h with score := some 150 }).actualWidth = "100%"
    ∧ (habitView { h with score := some (-5) }).actualWidth = "0%" := by
  refine ⟨rfl, ?_, ?_⟩ <;> simp [habitView, safeScore] <;> decide

/-- C7: the derived display values of `renderHabits` apply defensive
defaults — target 7 when absent/non-finite/non-positive, streak and best
streak 0 when absent/non-finite/negative, score 0 when non-finite, score
shown by `toFixed(1)` — and the meta line renders "7/week" without a
target and "Streak: 0 (best 0)" without streaks. -/
theorem renderHabits_defensive_defaults (h : Habit) :
    (h.target_per_week = none → safeTarget h = 7)
    ∧ (∀ q : ℚ, h.target_per_week = some q → q ≤ 0 → safeTarget h = 7)
    ∧ (h.streak = none → safeStreak h = 0)
    ∧ (∀ q : ℚ, h.streak = some q → q < 0 → safeStreak h = 0)
    ∧ (h.best_streak = none → safeBest h = 0)
    ∧ (∀ q : ℚ, h.best_streak = some q → q < 0 → safeBest h = 0)
    ∧ (h.score = none → safeScore h = 0)
    ∧ ((habitView h).metaText
        = "Target: " ++ jsNumToString (safeTarget h) ++ "/week • Streak: "
          ++ jsNumToString (safeStreak h) ++ " (best " ++ jsNumToString (safeBest h)
          ++ ") • Lifetime score: " ++ toFixed1 (safeScore h) ++ "%")
    ∧ ((habitView { bareHabit 1 "Meditate" with
                    streak := some 3,
                    best_streak := some 5,
                    score := some (mkRat 3573 50) }).metaText
        = "Target: 7/week • Streak: 3 (best 5) • Lifetime score: 71.5%")
    ∧ ((habitView { bareHabit 2 "Gym" with target_per_week := some 4 }).metaText
        = "Target: 4/week • Streak: 0 (best 0) • Lifetime score: 0.0%") := by
  refine ⟨fun he => by simp [safeTarget, he],
    fun q hq hle => by simp [safeTarget, hq, not_lt.mpr hle],
    fun he => by simp [safeStreak, he],
    fun q hq hlt => by simp [safeStreak, hq, not_le.mpr hlt],
    fun he => by simp [safeBest, he],
    fun q hq hlt => by simp [safeBest, hq, not_le.mpr hlt],
    fun he => by simp [safeScore, he],
    rfl, by decide, by decide⟩

/-- C7 witness: the defaults at concrete payloads (target absent and
target negative, streaks absent and negative, score absent). -/
theorem renderHabits_defensive_defaults_witness :
    safeTarget (bareHabit 1 "A") = 7
    ∧ safeTarget { bareHabit 1 "A" with target_per_week := some (-2) } = 7
    ∧ safeStreak (bareHabit 1 "A") = 0
    ∧ safeStreak { bareHabit 1 "A" with streak := some (-1) } = 0
    ∧ safeBest (bareHabit 1 "A") = 0
    ∧ safeBest { bareHabit 1 "A" with best_streak := some (-1) } = 0
    ∧ safeScore (bareHabit 1 "A") = 0 :=
  ⟨(renderHabits_defensive_defaults (bareHabit 1 "A")).1 rfl,
   (renderHabits_defensive_defaults _).2.1 (-2) rfl (by norm_num),
   (renderHabits_defensive_defaults (bareHabit 1 "A")).2.2.1 rfl,
   (renderHabits_defensive_defaults _).2.2.2.1 (-1) rfl (by norm_num),
   (renderHabits_defensive_defaults (bareHabit 1 "A")).2.2.2.2.1 rfl,
   (renderHabits_defensive_defaults _).2.2.2.2.2.1 (-1) rfl (by norm_num),
   (renderHabits_defensive_defaults (bareHabit 1 "A")).2.2.2.2.2.2.1 rfl⟩

/-- `String.prototype.trim()`: drop whitespace from both ends, computed
structurally on the character list (core `String.trim` is defined by
well-founded recursion and does not evaluate inside the kernel). -/
def jsTrim (s : String) : String :=
  ⟨((s.data.dropWhile Char.isWhitespace).reverse.dropWhile Char.isWhitespace).reverse⟩

/-- Helper of `splitComma`: accumulate the current piece (reversed). -/
def splitCommaAux : List Char → List Char → List String
  | [], acc => [⟨acc.reverse⟩]
  | c :: rest, acc =>
    if c = ',' then ⟨acc.reverse⟩ :: splitCommaAux rest []
    else splitCommaAux rest (c :: acc)

/-- `raw.split(',')`, computed structurally. -/
def splitComma (s : String) : List String := splitCommaAux s.data []

/-- Outcome of one `fetch(...)` + `res.json()` pair: the transport
rejects, the response is non-success (`!res.ok`), the body fails to parse
(`res.json()` throws), or a parsed payload of the expected shape. -/
inductive FetchOut (α : Type) where
  | netError
  | badStatus
  | badJson
  | ok (val : α)
deriving DecidableEq

/-- A fetch outcome that does not deliver a payload. -/
def FetchOut.fails {α : Type} : FetchOut α → Prop
  | .ok _ => False
  | _ => True

instance {α : Type} (r : FetchOut α) : Decidable r.fails := by
  cases r <;> simp [FetchOut.fails] <;> infer_instance

/-- The parsed progress payload: `malformed` is a well-formed JSON body
on which `data.dates.map(d => d.slice(5))` throws (no `dates` array);
`good` carries the fields the chart construction reads. -/
inductive ProgressPayload where
  | malformed
  | good (dates : List String) (ideal actual : List ℚ)
      (habitName : String) (habitColor : Option String) (habitTarget : ℚ)
deriving DecidableEq

/-- Parsed `/api/idealself` payload; `vision` and `focus_areas` may be
absent. -/
structure IdealData where
  vision : Option String
  focus_areas : Option (List String)
deriving DecidableEq

/-- Parsed journal entry; the `Date` timestamp is abstracted to an
order-isomorphic integer. -/
structure JEntry where
  content : String
  ts : Int
deriving DecidableEq

/-- The network environment: the outcome each endpoint would produce,
plus whether the charting library loaded (`typeof Chart`). -/
structure Env where
  chartDefined : Bool
  habitsResult : FetchOut (List Habit)
  progressResult : FetchOut ProgressPayload
  createResult : FetchOut (Option Int)
  updateResult : FetchOut Unit
  idealResult : FetchOut IdealData
  idealSaveResult : FetchOut Unit
  journalResult : FetchOut (List JEntry)
  journalAddResult : FetchOut Unit
deriving DecidableEq

/-- The state an async operation's promise settles with: its resolution
value, or — were it ever to reject — the state carried by the
rejection. -/
def settled (r : Except (String × App) App) : App :=
  match r with
  | .ok a => a
  | .error e => e.2

/-- `async function ensureDemoSeed()` (app.js 10-19): any failure is
swallowed inside the function — the catch has an empty body and the
demo-reset request carries `.catch(()=>{})`; no toast and no log. -/
def ensureDemoSeed (env : Env) (s : App) : App × Bool :=
  match env.habitsResult with
  | .netError => (s, false)
  | .badStatus => (s, false)
  | .badJson => (s, false)
  | .ok _ => (s, true)

/-- The catch block of `loadHabitProgress` (app.js 243). -/
def lhpCatch (s : App) : App :=
  let s1 := { s with logs := s.logs + 1 }
  let s2 := updateChartVisibility s1 VState.error "Could not load progress right now."
  showToast s2 "Could not load progress" "error"

/-- `async function loadHabitProgress()` (app.js 221-244). -/
def loadHabitProgress (env : Env) (s : App) : Except (String × App) App :=
  if !truthyId s.currentHabitId then .ok s
  else
    let s1 := updateChartVisibility s VState.loading "Loading progress..."
    let s2 := { s1 with progressFetches :=
      s1.progressFetches ++ [(s1.currentHabitId.getD 0, s1.currentRange)] }
    match env.progressResult with
    | .netError => .ok (lhpCatch s2)
    | .badStatus => .ok (lhpCatch s2)
    | .badJson => .ok (lhpCatch s2)
    | .ok payload =>
      if !s2.canvasPresent || !env.chartDefined then
        let s3 := updateChartVisibility s2 VState.error "Chart unavailable."
        .ok (showToast s3 "Progress chart unavailable right now" "error")
      else
        let s3 := { s2 with habitChart := s2.habitChart.map (fun _ => false) }
        match payload with
        | .malformed => .ok (lhpCatch s3)
        | .good _ _ _ _ _ _ =>
          let s4 := { s3 with habitChart := some true }
          .ok (updateChartVisibility s4 VState.ready "")

/-- `function setupRangeButtons()` (app.js 246-249). -/
def setupRangeButtons (s : App) : App :=
  if !s.rangeContainerPresent then s
  else { s with rangeButtons :=
    chartRanges.map (fun r => (r, r == s.currentRange, !truthyId s.currentHabitId)) }

/-- The catch block of `loadHabits` (app.js 218). -/
def loadHabitsCatch (s : App) : App :=
  let s1 := { s with logs := s.logs + 1 }
  let s2 := showToast s1 "Could not load habits" "error"
  updateChartVisibility s2 VState.error "Could not load habits."

/-- `async function loadHabits()` (app.js 211-219). -/
def loadHabits (env : Env) (s : App) : Except (String × App) App :=
  let seeded := ensureDemoSeed env s
  match env.habitsResult with
  | .netError => .ok (loadHabitsCatch seeded.1)
  | .badStatus => .ok (loadHabitsCatch seeded.1)
  | .badJson => .ok (loadHabitsCatch seeded.1)
  | .ok habits =>
    let s1 := renderHabits seeded.1 habits
    let s2 := updateHabitSelectOptions s1 habits
    let s3 := setupRangeButtons s2
    if truthyId s3.currentHabitId then
      match loadHabitProgress env s3 with
      | .ok s4 => .ok s4
      | .error e => .ok (loadHabitsCatch e.2)
    else .ok (updateChartVisibility s3 VState.empty DEFAULT_CHART_MESSAGE)

/-- The catch block of `addHabit` (app.js 143). -/
def addHabitCatch (s : App) : App :=
  showToast { s with logs := s.logs + 1 } "Could not add habit" "error"

/-- `async function addHabit(event)` (app.js 128-144); `nameRaw` is the
name input's value, the color and target inputs only feed the request
body. -/
def addHabit (env : Env) (nameRaw : String) (s : App) : Except (String × App) App :=
  if jsTrim nameRaw = "" then .ok s
  else
    match env.createResult with
    | .netError => .ok (addHabitCatch s)
    | .badStatus => .ok (addHabitCatch s)
    | .badJson => .ok (addHabitCatch s)
    | .ok createdId =>
      let nextCur := if truthyId createdId then createdId else s.currentHabitId
      let s1 := { s with currentHabitId := nextCur }
      let s2 := showToast s1 "Habit added" "success"
      match loadHabits env s2 with
      | .error e => .ok (addHabitCatch e.2)
      | .ok s3 =>
        if truthyId s3.currentHabitId then
          match loadHabitProgress env s3 with
          | .ok s4 => .ok s4
          | .error e => .ok (addHabitCatch e.2)
        else .ok s3

/-- The catch block of `toggleHabitCompletion` (app.js 151). -/
def toggleCatch (s : App) : App :=
  showToast { s with logs := s.logs + 1 } "Could not update habit" "error"

/-- `async function toggleHabitCompletion(habit)` (app.js 146-152). -/
def toggleHabitCompletion (env : Env) (habit : Habit) (s : App) :
    Except (String × App) App :=
  match env.updateResult with
  | .netError => .ok (toggleCatch s)
  | .badStatus => .ok (toggleCatch s)
  | .badJson => .ok (toggleCatch s)
  | .ok _ =>
    match loadHabits env s with
    | .error e => .ok (toggleCatch e.2)
    | .ok s1 =>
      if s1.currentHabitId == some habit.id then
        match loadHabitProgress env s1 with
        | .ok s2 => .ok s2
        | .error e => .ok (toggleCatch e.2)
      else .ok s1

/-- `function renderIdealSelfSummary(vision, focusAreas)` (app.js 65-74);
the summary elements are taken as present. -/
def renderIdealSelfSummary (s : App) (vision : String) (focusAreas : List String) : App :=
  let hasAny := !(jsTrim vision == "") || !focusAreas.isEmpty
  { s with
    summaryDisplay := some (if hasAny then "block" else "none")
    visionCopy := vision
    focusCopy := if !focusAreas.isEmpty
      then "Focus areas: " ++ String.intercalate " • " focusAreas
      else "" }

/-- `async function loadIdealSelf()` (app.js 52-63): the catch only logs
(`console.error(err)`) — no toast.  The form fields are taken as
present, so the `visionField && ...` guards reduce to the payload's own
truthiness. -/
def loadIdealSelf (env : Env) (s : App) : Except (String × App) App :=
  match env.idealResult with
  | .netError => .ok { s with logs := s.logs + 1 }
  | .badStatus => .ok { s with logs := s.logs + 1 }
  | .badJson => .ok { s with logs := s.logs + 1 }
  | .ok data =>
    let s1 := renderIdealSelfSummary s (data.vision.getD "") (data.focus_areas.getD [])
    let s2 := match data.vision with
      | some v => if v == "" then s1 else { s1 with visionField := v }
      | none => s1
    let s3 := match data.focus_areas with
      | some l => { s2 with focusField := String.intercalate ", " l }
      | none => s2
    .ok s3

/-- `async function saveIdealSelf(event)` (app.js 76-87); the two raw
input values are arguments. -/
def saveIdealSelf (env : Env) (visionRaw focusRaw : String) (s : App) :
    Except (String × App) App :=
  let vision := jsTrim visionRaw
  let focus_areas := ((splitComma focusRaw).map jsTrim).filter (· != "")
  match env.idealSaveResult with
  | .ok _ =>
    let s1 := renderIdealSelfSummary s vision focus_areas
    .ok (showToast s1 "Ideal self updated" "success")
  | _ =>
    .ok (showToast { s with logs := s.logs + 1 } "Could not save ideal self" "error")

/-- Insertion step of the newest-first journal sort. -/
def insertDescJE (e : JEntry) : List JEntry → List JEntry
  | [] => [e]
  | x :: xs => if x.ts < e.ts then e :: x :: xs else x :: insertDescJE e xs

/-- `entries.sort((a, b) => new Date(b.timestamp) - new Date(a.timestamp))`
(app.js 109), as an insertion sort on the abstracted timestamps. -/
def sortDescJE : List JEntry → List JEntry
  | [] => []
  | e :: xs => insertDescJE e (sortDescJE xs)

/-- `async function loadJournalEntries()` (app.js 104-125);
`journalItems` models the rendered list items. -/
def loadJournalEntries (env : Env) (s : App) : Except (String × App) App :=
  match env.journalResult with
  | .netError =>
    .ok (showToast { s with logs := s.logs + 1 } "Could not load journal entries" "error")
  | .badStatus =>
    .ok (showToast { s with logs := s.logs + 1 } "Could not load journal entries" "error")
  | .badJson =>
    .ok (showToast { s with logs := s.logs + 1 } "Could not load journal entries" "error")
  | .ok entries =>
    if entries.isEmpty then
      .ok { s with journalItems :=
        ["No journal entries yet. Capture a reflection to start building insights."] }
    else
      .ok { s with journalItems := (sortDescJE entries).map (fun e => e.content) }

/-- The catch block of `addJournalEntry` (app.js 101). -/
def addJournalCatch (s : App) : App :=
  showToast { s with logs := s.logs + 1 } "Could not save entry" "error"

/-- `async function addJournalEntry(event)` (app.js 90-102); the textarea
value lives in `journalInput`. -/
def addJournalEntry (env : Env) (s : App) : Except (String × App) App :=
  if jsTrim s.journalInput = "" then .ok s
  else
    match env.journalAddResult with
    | .netError => .ok (addJournalCatch s)
    | .badStatus => .ok (addJournalCatch s)
    | .badJson => .ok (addJournalCatch s)
    | .ok _ =>
      let s1 := { s with journalInput := "" }
      let s2 := showToast s1 "Journal entry saved" "success"
      match loadJournalEntries env s2 with
      | .ok s3 => .ok s3
      | .error e => .ok (addJournalCatch e.2)

/-- The `habitSelect` change listener (app.js 263); `parseInt` is
abstracted to its result, `none` meaning `NaN`. -/
def habitSelectChange (env : Env) (nextId : Option Int) (s : App) :
    Except (String × App) App :=
  match nextId with
  | none => .ok s
  | some n => loadHabitProgress env { s with currentHabitId := some n }

/-- The per-habit "View progress" click listener (app.js 188). -/
def viewProgressClick (env : Env) (habits : List Habit) (habit : Habit) (s : App) :
    Except (String × App) App :=
  let s1 := { s with currentHabitId := some habit.id }
  let s2 := updateHabitSelectOptions s1 habits
  loadHabitProgress env s2

/-- The failure modes of a progress load: transport error, non-success
status, unparsable body, payload without a usable `dates` array, or a
missing charting library. -/
def progressFailure (env : Env) : Prop :=
  env.progressResult = .netError ∨ env.progressResult = .badStatus
  ∨ env.progressResult = .badJson ∨ env.progressResult = .ok .malformed
  ∨ env.chartDefined = false

/-- C3: with the chart DOM present, every failure of `loadHabitProgress`
under a truthy current-habit id resolves (never rejects) in visibility
state `error` with a non-empty message, emits exactly one toast, leaves
no chart instance live, and never ends in `loading`; with a null id the
function is a no-op. -/
theorem loadHabitProgress_failure_handling (env : Env) (s : App)
    (hc : s.canvasPresent = true) (hp : s.placeholderPresent = true) :
    (s.currentHabitId = none → loadHabitProgress env s = .ok s)
    ∧ (truthyId s.currentHabitId = true → progressFailure env →
        loadHabitProgress env s = .ok (settled (loadHabitProgress env s))
        ∧ (settled (loadHabitProgress env s)).placeholderState = some VState.error
        ∧ (settled (loadHabitProgress env s)).placeholderText ≠ ""
        ∧ (settled (loadHabitProgress env s)).toasts.length = s.toasts.length + 1
        ∧ (settled (loadHabitProgress env s)).habitChart = none
        ∧ (settled (loadHabitProgress env s)).placeholderState ≠ some VState.loading) := by
  constructor
  · intro h
    simp [loadHabitProgress, h, truthyId]
  · intro ht hfail
    cases hres : env.progressResult with
    | netError =>
      simp [loadHabitProgress, settled, lhpCatch, updateChartVisibility, showToast,
        ht, hres, hc, hp]
      cases s.habitChart <;> simp
    | badStatus =>
      simp [loadHabitProgress, settled, lhpCatch, updateChartVisibility, showToast,
        ht, hres, hc, hp]
      cases s.habitChart <;> simp
    | badJson =>
      simp [loadHabitProgress, settled, lhpCatch, updateChartVisibility, showToast,
        ht, hres, hc, hp]
      cases s.habitChart <;> simp
    | ok payload =>
      by_cases hcd : env.chartDefined = true
      · have hmal : payload = .malformed := by
          rcases hfail with h | h | h | h | h <;> simp_all [hres]
        subst hmal
        simp [loadHabitProgress, settled, lhpCatch, updateChartVisibility, showToast,
          ht, hres, hc, hp, hcd]
        cases s.habitChart <;> simp
      · have hcd2 : env.chartDefined = false := by simpa using hcd
        simp [loadHabitProgress, settled, lhpCatch, updateChartVisibility, showToast,
          ht, hres, hc, hp, hcd2]
        cases s.habitChart <;> simp

/-- An environment in which every endpoint succeeds. -/
def envAllOk : Env :=
  { chartDefined := true
    habitsResult := .ok [bareHabit 1 "Run"]
    progressResult := .ok (.good ["2026-01-01"] [1] [1] "Run" none 7)
    createResult := .ok (some 1)
    updateResult := .ok ()
    idealResult := .ok ⟨some "Be consistent", some ["health"]⟩
    idealSaveResult := .ok ()
    journalResult := .ok []
    journalAddResult := .ok () }

/-- C3 witness: a transport failure at a concrete state with habit 1
selected. -/
theorem loadHabitProgress_failure_handling_witness :
    loadHabitProgress { envAllOk with progressResult := FetchOut.netError }
        { blankApp with currentHabitId := some 1 }
      = .ok (settled (loadHabitProgress
          { envAllOk with progressResult := FetchOut.netError }
          { blankApp with currentHabitId := some 1 }))
    ∧ (settled (loadHabitProgress { envAllOk with progressResult := FetchOut.netError }
        { blankApp with currentHabitId := some 1 })).placeholderState
        = some VState.error
    ∧ (settled (loadHabitProgress { envAllOk with progressResult := FetchOut.netError }
        { blankApp with currentHabitId := some 1 })).placeholderText ≠ ""
    ∧ (settled (loadHabitProgress { envAllOk with progressResult := FetchOut.netError }
        { blankApp with currentHabitId := some 1 })).toasts.length
        = ({ blankApp with currentHabitId := some 1 } : App).toasts.length + 1
    ∧ (settled (loadHabitProgress { envAllOk with progressResult := FetchOut.netError }
        { blankApp with currentHabitId := some 1 })).habitChart = none
    ∧ (settled (loadHabitProgress { envAllOk with progressResult := FetchOut.netError }
        { blankApp with currentHabitId := some 1 })).placeholderState
        ≠ some VState.loading :=
  (loadHabitProgress_failure_handling
    { envAllOk with progressResult := FetchOut.netError }
    { blankApp with currentHabitId := some 1 } rfl rfl).2 rfl (Or.inl rfl)

/-- `updateChartVisibility` leaves the current habit id unchanged. -/
theorem ucvF_cur (s : App) (st : VState) (m : String) :
    (updateChartVisibility s st m).currentHabitId = s.currentHabitId := by
  simp only [updateChartVisibility]
  repeat' split
  all_goals rfl

/-- `updateChartVisibility` leaves the current range unchanged. -/
theorem ucvF_range (s : App) (st : VState) (m : String) :
    (updateChartVisibility s st m).currentRange = s.currentRange := by
  simp only [updateChartVisibility]
  repeat' split
  all_goals rfl

/-- `updateChartVisibility` issues no progress fetch. -/
theorem ucvF_fetches (s : App) (st : VState) (m : String) :
    (updateChartVisibility s st m).progressFetches = s.progressFetches := by
  simp only [updateChartVisibility]
  repeat' split
  all_goals rfl

/-- `updateChartVisibility` keeps the canvas-presence flag. -/
theorem ucvF_canvasPresent (s : App) (st : VState) (m : String) :
    (updateChartVisibility s st m).canvasPresent = s.canvasPresent := by
  simp only [updateChartVisibility]
  repeat' split
  all_goals rfl

/-- `updateChartVisibility` emits no toast. -/
theorem ucvF_toasts (s : App) (st : VState) (m : String) :
    (updateChartVisibility s st m).toasts = s.toasts := by
  simp only [updateChartVisibility]
  repeat' split
  all_goals rfl

/-- `loadHabitProgress` always resolves; it keeps the current habit id
and range, and appends exactly one progress-fetch record when the id is
truthy and none otherwise. -/
theorem lhpE (env : Env) (s : App) :
    loadHabitProgress env s = .ok (settled (loadHabitProgress env s))
    ∧ (settled (loadHabitProgress env s)).currentHabitId = s.currentHabitId
    ∧ (settled (loadHabitProgress env s)).currentRange = s.currentRange
    ∧ (settled (loadHabitProgress env s)).progressFetches
        = (if truthyId s.currentHabitId then
            s.progressFetches ++ [(s.currentHabitId.getD 0, s.currentRange)]
          else s.progressFetches) := by
  by_cases ht : truthyId s.currentHabitId = true
  · cases hres : env.progressResult with
    | netError =>
      simp [loadHabitProgress, settled, lhpCatch, showToast, ht, hres,
        ucvF_cur, ucvF_range, ucvF_fetches]
    | badStatus =>
      simp [loadHabitProgress, settled, lhpCatch, showToast, ht, hres,
        ucvF_cur, ucvF_range, ucvF_fetches]
    | badJson =>
      simp [loadHabitProgress, settled, lhpCatch, showToast, ht, hres,
        ucvF_cur, ucvF_range, ucvF_fetches]
    | ok payload =>
      cases payload with
      | malformed =>
        simp only [loadHabitProgress, settled, lhpCatch, showToast, ht, hres,
          Bool.not_true, Bool.false_eq_true, if_false]
        split <;>
          simp [lhpCatch, showToast, ucvF_cur, ucvF_range, ucvF_fetches, ht]
      | good d i a n c t =>
        simp only [loadHabitProgress, settled, lhpCatch, showToast, ht, hres,
          Bool.not_true, Bool.false_eq_true, if_false]
        split <;>
          simp [lhpCatch, showToast, ucvF_cur, ucvF_range, ucvF_fetches, ht]
  · have ht2 : truthyId s.currentHabitId = false := by simpa using ht
    simp [loadHabitProgress, settled, ht2]

/-- `renderHabits` touches neither the selection state nor the fetch
trace. -/
theorem renderF (s : App) (habits : List Habit) :
    (renderHabits s habits).currentHabitId = s.currentHabitId
    ∧ (renderHabits s habits).currentRange = s.currentRange
    ∧ (renderHabits s habits).progressFetches = s.progressFetches := by
  simp only [renderHabits]
  repeat' split
  all_goals simp [ucvF_cur, ucvF_range, ucvF_fetches]

/-- `updateHabitSelectOptions` keeps the range and the fetch trace. -/
theorem selF (s : App) (habits : List Habit) :
    (updateHabitSelectOptions s habits).currentRange = s.currentRange
    ∧ (updateHabitSelectOptions s habits).progressFetches = s.progressFetches := by
  simp only [updateHabitSelectOptions]
  repeat' split
  all_goals simp

/-- `setupRangeButtons` keeps the selection state and the fetch trace. -/
theorem rangeF (s : App) :
    (setupRangeButtons s).currentHabitId = s.currentHabitId
    ∧ (setupRangeButtons s).currentRange = s.currentRange
    ∧ (setupRangeButtons s).progressFetches = s.progressFetches := by
  simp only [setupRangeButtons]
  repeat' split
  all_goals simp

/-- A successful habit-collection fetch makes `loadHabits` resolve,
keeps the range, reconciles the id through the selector, and issues
exactly one progress fetch when the reconciled id is truthy and none
otherwise. -/
theorem loadHabitsE (env : Env) (s : App) (habits : List Habit)
    (hres : env.habitsResult = .ok habits) :
    loadHabits env s = .ok (settled (loadHabits env s))
    ∧ (settled (loadHabits env s)).currentRange = s.currentRange
    ∧ (settled (loadHabits env s)).currentHabitId
        = (setupRangeButtons (updateHabitSelectOptions (renderHabits s habits)
            habits)).currentHabitId
    ∧ (truthyId (settled (loadHabits env s)).currentHabitId = true →
        (settled (loadHabits env s)).progressFetches
          = s.progressFetches
            ++ [((settled (loadHabits env s)).currentHabitId.getD 0, s.currentRange)])
    ∧ (truthyId (settled (loadHabits env s)).currentHabitId = false →
        (settled (loadHabits env s)).progressFetches = s.progressFetches) := by
  have hE := lhpE env (setupRangeButtons (updateHabitSelectOptions (renderHabits s habits) habits))
  have hr := renderF s habits
  have hs := selF (renderHabits s habits) habits
  have hg := rangeF (updateHabitSelectOptions (renderHabits s habits) habits)
  by_cases ht : truthyId (setupRangeButtons (updateHabitSelectOptions
      (renderHabits s habits) habits)).currentHabitId = true
  · have hred : settled (loadHabits env s)
        = settled (loadHabitProgress env (setupRangeButtons (updateHabitSelectOptions
            (renderHabits s habits) habits))) := by
      simp only [loadHabits, hres, ensureDemoSeed, ht, if_true]
      rw [hE.1]
      try simp [settled]
    refine ⟨?_, ?_, ?_, ?_, ?_⟩
    · rw [hred]
      simp only [loadHabits, hres, ensureDemoSeed, ht, if_true]
      rw [hE.1]
      try simp [settled]
    · rw [hred, hE.2.2.1, hg.2.1, hs.1, hr.2.1]
    · rw [hred, hE.2.1]
    · intro h2
      rw [hred] at h2 ⊢
      rw [hE.2.2.2, hE.2.1]
      simp only [ht, if_true]
      rw [hg.2.2, hs.2, hr.2.2, hg.2.1, hs.1, hr.2.1]
    · intro h2
      rw [hred, hE.2.1] at h2
      rw [h2] at ht
      simp at ht
  · have ht2 : truthyId (setupRangeButtons (updateHabitSelectOptions
        (renderHabits s habits) habits)).currentHabitId = false := by simpa using ht
    have hred : settled (loadHabits env s)
        = updateChartVisibility (setupRangeButtons (updateHabitSelectOptions
            (renderHabits s habits) habits)) VState.empty DEFAULT_CHART_MESSAGE := by
      simp only [loadHabits, hres, ensureDemoSeed, ht2, Bool.false_eq_true, if_false]
      try simp [settled]
    refine ⟨?_, ?_, ?_, ?_, ?_⟩
    · rw [hred]
      simp only [loadHabits, hres, ensureDemoSeed, ht2, Bool.false_eq_true, if_false]
      try simp [settled]
    · rw [hred, ucvF_range, hg.2.1, hs.1, hr.2.1]
    · rw [hred, ucvF_cur]
    · intro h2
      rw [hred, ucvF_cur, ht2] at h2
      simp at h2
    · intro h2
      rw [hred, ucvF_fetches, hg.2.2, hs.2, hr.2.2]

/-- A truthy selection that the fetched collection still contains
survives a whole `loadHabits` run. -/
theorem loadHabits_keeps_cur (env : Env) (s : App) (habits : List Habit) (p : Int)
    (hres : env.habitsResult = .ok habits) (hp : p ≠ 0)
    (hcur : s.currentHabitId = some p)
    (hmem : habits.any (fun h => h.id == p) = true) :
    (settled (loadHabits env s)).currentHabitId = some p := by
  rw [(loadHabitsE env s habits hres).2.2.1, (rangeF _).1]
  exact keepSelection_truthy _ habits p hp (by rw [(renderF s habits).1, hcur]) hmem

/-- A selector change to a parseable nonzero id issues exactly one
progress fetch for it. -/
theorem habitSelectChangeE (env : Env) (s : App) (n : Int) (hn : n ≠ 0) :
    habitSelectChange env (some n) s
      = .ok (settled (habitSelectChange env (some n) s))
    ∧ (settled (habitSelectChange env (some n) s)).progressFetches
        = s.progressFetches ++ [(n, s.currentRange)]
    ∧ (settled (habitSelectChange env (some n) s)).currentHabitId = some n := by
  have hE := lhpE env { s with currentHabitId := some n }
  simp only [habitSelectChange]
  refine ⟨hE.1, ?_, ?_⟩
  · rw [hE.2.2.2]
    simp [truthyId, hn]
  · rw [hE.2.1]

/-- A "View progress" click on a habit with a nonzero id that is in the
rendered collection issues exactly one progress fetch for it. -/
theorem viewProgressClickE (env : Env) (s : App) (habits : List Habit) (habit : Habit)
    (hid : habit.id ≠ 0)
    (hmem : habits.any (fun h => h.id == habit.id) = true) :
    viewProgressClick env habits habit s
      = .ok (settled (viewProgressClick env habits habit s))
    ∧ (settled (viewProgressClick env habits habit s)).progressFetches
        = s.progressFetches ++ [(habit.id, s.currentRange)]
    ∧ (settled (viewProgressClick env habits habit s)).currentHabitId
        = some habit.id := by
  have hcur2 : (updateHabitSelectOptions { s with currentHabitId := some habit.id }
      habits).currentHabitId = some habit.id :=
    keepSelection_truthy _ habits habit.id hid rfl hmem
  have hE := lhpE env (updateHabitSelectOptions { s with currentHabitId := some habit.id } habits)
  simp only [viewProgressClick]
  refine ⟨hE.1, ?_, ?_⟩
  · rw [hE.2.2.2, hcur2]
    simp only [truthyId, bne_iff_ne, ne_eq, hid, not_false_eq_true, if_true,
      Option.getD_some]
    rw [(selF _ habits).2, (selF _ habits).1]
  · rw [hE.2.1, hcur2]

/-- A successful habit creation issues two progress fetches for the
created id: one inside the triggered `loadHabits` and a second directly
from `addHabit`. -/
theorem addHabitE (env : Env) (s : App) (nameRaw : String)
    (habits : List Habit) (cid : Int)
    (hname : jsTrim nameRaw ≠ "")
    (hcr : env.createResult = .ok (some cid)) (hcid : cid ≠ 0)
    (hres : env.habitsResult = .ok habits)
    (hmem : habits.any (fun h => h.id == cid) = true) :
    addHabit env nameRaw s = .ok (settled (addHabit env nameRaw s))
    ∧ (settled (addHabit env nameRaw s)).progressFetches
        = s.progressFetches ++ [(cid, s.currentRange), (cid, s.currentRange)] := by
  have htr : truthyId (some cid) = true := by simp [truthyId, hcid]
  have hname2 : (jsTrim nameRaw = "") = False := by simp [hname]
  have hLH := loadHabitsE env (showToast { s with currentHabitId := some cid }
    "Habit added" "success") habits hres
  have hcur3 := loadHabits_keeps_cur env (showToast { s with currentHabitId := some cid }
    "Habit added" "success") habits cid hres hcid (by simp [showToast]) hmem
  have hE := lhpE env (settled (loadHabits env (showToast
    { s with currentHabitId := some cid } "Habit added" "success")))
  have htY : truthyId (settled (loadHabits env (showToast
      { s with currentHabitId := some cid } "Habit added" "success"))).currentHabitId
      = true := by
    rw [hcur3]; exact htr
  have hred : settled (addHabit env nameRaw s)
      = settled (loadHabitProgress env (settled (loadHabits env (showToast
          { s with currentHabitId := some cid } "Habit added" "success")))) := by
    simp only [addHabit, hname2, if_false, hcr, htr, if_true]
    rw [hLH.1]
    simp only [htY, if_true]
    rw [hE.1]
    try simp [settled]
  refine ⟨?_, ?_⟩
  · rw [hred]
    simp only [addHabit, hname2, if_false, hcr, htr, if_true]
    rw [hLH.1]
    simp only [htY, if_true]
    rw [hE.1]
    try simp [settled]
  · rw [hred, hE.2.2.2]
    simp only [htY, if_true]
    rw [hLH.2.2.2.1 htY, hcur3]
    simp only [Option.getD_some]
    rw [hLH.2.1]
    simp [showToast, List.append_assoc]

/-- C4 counterexample: from the blank state, a successful habit creation
(id 1 returned, collection refetched as that one habit, everything else
healthy) invokes the progress load twice — once via the triggered
`loadHabits` and once directly — not exactly once; and a selector change
to the (falsy) id 0 invokes it zero times. -/
theorem addHabit_double_progress_fetch :
    (settled (addHabit envAllOk "Run" blankApp)).progressFetches = [(1, 30), (1, 30)]
    ∧ (settled (habitSelectChange envAllOk (some 0) blankApp)).progressFetches = []
    ∧ blankApp.currentRange = 30 := by
  refine ⟨by decide, by decide, by decide⟩

/-- C4 (amended): each identifier-changing path issues progress loads
for the new identifier at the current range as follows — a habit
collection load (initial load and fallback included) issues exactly one
when the reconciled identifier is truthy; a "view progress" click on a
listed habit with nonzero id issues exactly one; a selector change to a
parsed nonzero id issues exactly one; a successful habit creation whose
id is nonzero and present in the refetched collection issues exactly
two. -/
theorem progress_load_per_identifier_change :
    (∀ (env : Env) (s : App) (habits : List Habit),
      env.habitsResult = .ok habits →
      truthyId (settled (loadHabits env s)).currentHabitId = true →
      (settled (loadHabits env s)).progressFetches
        = s.progressFetches
          ++ [((settled (loadHabits env s)).currentHabitId.getD 0, s.currentRange)])
    ∧ (∀ (env : Env) (s : App) (habits : List Habit) (habit : Habit),
        habit.id ≠ 0 → habits.any (fun h => h.id == habit.id) = true →
        (settled (viewProgressClick env habits habit s)).progressFetches
          = s.progressFetches ++ [(habit.id, s.currentRange)])
    ∧ (∀ (env : Env) (s : App) (n : Int), n ≠ 0 →
        (settled (habitSelectChange env (some n) s)).progressFetches
          = s.progressFetches ++ [(n, s.currentRange)])
    ∧ (∀ (env : Env) (s : App) (nameRaw : String) (habits : List Habit) (cid : Int),
        jsTrim nameRaw ≠ "" → env.createResult = .ok (some cid) → cid ≠ 0 →
        env.habitsResult = .ok habits →
        habits.any (fun h => h.id == cid) = true →
        (settled (addHabit env nameRaw s)).progressFetches
          = s.progressFetches ++ [(cid, s.currentRange), (cid, s.currentRange)]) :=
  ⟨fun env s habits hres ht => (loadHabitsE env s habits hres).2.2.2.1 ht,
   fun env s habits habit hid hmem => (viewProgressClickE env s habits habit hid hmem).2.1,
   fun env s n hn => (habitSelectChangeE env s n hn).2.1,
   fun env s nameRaw habits cid hname hcr hcid hres hmem =>
     (addHabitE env s nameRaw habits cid hname hcr hcid hres hmem).2⟩

/-- C4 witness: the four paths at concrete inputs. -/
theorem progress_load_per_identifier_change_witness :
    (settled (loadHabits envAllOk blankApp)).progressFetches
        = blankApp.progressFetches
          ++ [((settled (loadHabits envAllOk blankApp)).currentHabitId.getD 0,
               blankApp.currentRange)]
    ∧ (settled (viewProgressClick envAllOk [bareHabit 1 "Run"] (bareHabit 1 "Run")
          blankApp)).progressFetches
        = blankApp.progressFetches ++ [(1, blankApp.currentRange)]
    ∧ (settled (habitSelectChange envAllOk (some 1) blankApp)).progressFetches
        = blankApp.progressFetches ++ [(1, blankApp.currentRange)]
    ∧ (settled (addHabit envAllOk "Run" blankApp)).progressFetches
        = blankApp.progressFetches
          ++ [(1, blankApp.currentRange), (1, blankApp.currentRange)] :=
  ⟨progress_load_per_identifier_change.1 envAllOk blankApp [bareHabit 1 "Run"]
      rfl (by decide),
   progress_load_per_identifier_change.2.1 envAllOk blankApp [bareHabit 1 "Run"]
      (bareHabit 1 "Run") (by decide) (by decide),
   progress_load_per_identifier_change.2.2.1 envAllOk blankApp 1 (by decide),
   progress_load_per_identifier_change.2.2.2 envAllOk blankApp "Run"
      [bareHabit 1 "Run"] 1 (by decide) rfl (by decide) rfl (by decide)⟩

theorem loadIdealSelf_resolves (env : Env) (s : App) :
    loadIdealSelf env s = .ok (settled (loadIdealSelf env s)) := by
  simp only [loadIdealSelf]
  repeat' split
  all_goals rfl

theorem saveIdealSelf_resolves (env : Env) (vr fr : String) (s : App) :
    saveIdealSelf env vr fr s = .ok (settled (saveIdealSelf env vr fr s)) := by
  simp only [saveIdealSelf]
  repeat' split
  all_goals rfl

theorem loadJournalEntries_resolves (env : Env) (s : App) :
    loadJournalEntries env s = .ok (settled (loadJournalEntries env s)) := by
  simp only [loadJournalEntries]
  repeat' split
  all_goals rfl

theorem addJournalEntry_resolves (env : Env) (s : App) :
    addJournalEntry env s = .ok (settled (addJournalEntry env s)) := by
  simp only [addJournalEntry]
  repeat' split
  all_goals rfl

theorem loadHabits_resolves (env : Env) (s : App) :
    loadHabits env s = .ok (settled (loadHabits env s)) := by
  simp only [loadHabits]
  repeat' split
  all_goals rfl

theorem addHabit_resolves (env : Env) (nameRaw : String) (s : App) :
    addHabit env nameRaw s = .ok (settled (addHabit env nameRaw s)) := by
  simp only [addHabit]
  repeat' split
  all_goals rfl

theorem toggleHabitCompletion_resolves (env : Env) (habit : Habit) (s : App) :
    toggleHabitCompletion env habit s
      = .ok (settled (toggleHabitCompletion env habit s)) := by
  simp only [toggleHabitCompletion]
  repeat' split
  all_goals rfl

theorem loadIdealSelfF (env : Env) (s : App) (hf : env.idealResult.fails) :
    settled (loadIdealSelf env s) = { s with logs := s.logs + 1 } := by
  cases hres : env.idealResult <;>
    simp_all [loadIdealSelf, FetchOut.fails, settled]

theorem saveIdealSelfF (env : Env) (vr fr : String) (s : App)
    (hf : env.idealSaveResult.fails) :
    settled (saveIdealSelf env vr fr s)
      = showToast { s with logs := s.logs + 1 } "Could not save ideal self" "error" := by
  cases hres : env.idealSaveResult <;>
    simp_all [saveIdealSelf, FetchOut.fails, settled]

theorem loadJournalEntriesF (env : Env) (s : App) (hf : env.journalResult.fails) :
    settled (loadJournalEntries env s)
      = showToast { s with logs := s.logs + 1 } "Could not load journal entries" "error" := by
  cases hres : env.journalResult <;>
    simp_all [loadJournalEntries, FetchOut.fails, settled]

theorem addJournalEntryF (env : Env) (s : App)
    (hin : jsTrim s.journalInput ≠ "") (hf : env.journalAddResult.fails) :
    settled (addJournalEntry env s) = addJournalCatch s := by
  cases hres : env.journalAddResult <;>
    simp_all [addJournalEntry, FetchOut.fails, settled]

theorem loadHabitsF (env : Env) (s : App) (hf : env.habitsResult.fails) :
    settled (loadHabits env s) = loadHabitsCatch s := by
  cases hres : env.habitsResult <;>
    simp_all [loadHabits, ensureDemoSeed, FetchOut.fails, settled]

theorem addHabitF (env : Env) (nameRaw : String) (s : App)
    (hname : jsTrim nameRaw ≠ "") (hf : env.createResult.fails) :
    settled (addHabit env nameRaw s) = addHabitCatch s := by
  cases hcr : env.createResult <;>
    simp_all [addHabit, FetchOut.fails, settled]

theorem toggleHabitCompletionF (env : Env) (habit : Habit) (s : App)
    (hf : env.updateResult.fails) :
    settled (toggleHabitCompletion env habit s) = toggleCatch s := by
  cases hres : env.updateResult <;>
    simp_all [toggleHabitCompletion, FetchOut.fails, settled]

theorem ensureDemoSeedF (env : Env) (s : App) (hf : env.habitsResult.fails) :
    ensureDemoSeed env s = (s, false) := by
  cases hres : env.habitsResult <;>
    simp_all [ensureDemoSeed, FetchOut.fails]

theorem lhpF_toast (env : Env) (s : App)
    (hc : s.canvasPresent = true) (_hp : s.placeholderPresent = true)
    (ht : truthyId s.currentHabitId = true) (hfail : progressFailure env) :
    (settled (loadHabitProgress env s)).toasts.length = s.toasts.length + 1 := by
  cases hres : env.progressResult with
  | netError =>
    simp [loadHabitProgress, settled, lhpCatch, showToast, ht, hres, ucvF_toasts]
  | badStatus =>
    simp [loadHabitProgress, settled, lhpCatch, showToast, ht, hres, ucvF_toasts]
  | badJson =>
    simp [loadHabitProgress, settled, lhpCatch, showToast, ht, hres, ucvF_toasts]
  | ok payload =>
    by_cases hcd : env.chartDefined = true
    · have hmal : payload = .malformed := by
        rcases hfail with h | h | h | h | h <;> simp_all [hres]
      subst hmal
      simp [loadHabitProgress, settled, lhpCatch, showToast, ht, hres, hc,
        hcd, ucvF_toasts, ucvF_canvasPresent]
    · have hcd2 : env.chartDefined = false := by simpa using hcd
      simp [loadHabitProgress, settled, lhpCatch, showToast, ht, hres, hc,
        hcd2, ucvF_toasts, ucvF_canvasPresent]

theorem gateway_failure_policy (env : Env) (s : App) (vr fr : String) (habit : Habit) :
    (loadIdealSelf env s = .ok (settled (loadIdealSelf env s))
      ∧ saveIdealSelf env vr fr s = .ok (settled (saveIdealSelf env vr fr s))
      ∧ loadJournalEntries env s = .ok (settled (loadJournalEntries env s))
      ∧ addJournalEntry env s = .ok (settled (addJournalEntry env s))
      ∧ loadHabits env s = .ok (settled (loadHabits env s))
      ∧ addHabit env vr s = .ok (settled (addHabit env vr s))
      ∧ toggleHabitCompletion env habit s = .ok (settled (toggleHabitCompletion env habit s))
      ∧ loadHabitProgress env s = .ok (settled (loadHabitProgress env s)))
    ∧ (env.idealSaveResult.fails →
        settled (saveIdealSelf env vr fr s)
          = showToast { s with logs := s.logs + 1 } "Could not save ideal self" "error")
    ∧ (env.journalResult.fails →
        settled (loadJournalEntries env s)
          = showToast { s with logs := s.logs + 1 } "Could not load journal entries" "error")
    ∧ (jsTrim s.journalInput ≠ "" → env.journalAddResult.fails →
        settled (addJournalEntry env s) = addJournalCatch s)
    ∧ (env.habitsResult.fails →
        settled (loadHabits env s) = loadHabitsCatch s)
    ∧ (jsTrim vr ≠ "" → env.createResult.fails →
        settled (addHabit env vr s) = addHabitCatch s)
    ∧ (env.updateResult.fails →
        settled (toggleHabitCompletion env habit s) = toggleCatch s)
    ∧ (s.canvasPresent = true → s.placeholderPresent = true →
        truthyId s.currentHabitId = true → progressFailure env →
        (settled (loadHabitProgress env s)).toasts.length = s.toasts.length + 1)
    ∧ (env.idealResult.fails →
        settled (loadIdealSelf env s) = { s with logs := s.logs + 1 })
    ∧ (env.habitsResult.fails → ensureDemoSeed env s = (s, false)) :=
  ⟨⟨loadIdealSelf_resolves env s, saveIdealSelf_resolves env vr fr s,
    loadJournalEntries_resolves env s, addJournalEntry_resolves env s,
    loadHabits_resolves env s, addHabit_resolves env vr s,
    toggleHabitCompletion_resolves env habit s, (lhpE env s).1⟩,
   saveIdealSelfF env vr fr s,
   loadJournalEntriesF env s,
   addJournalEntryF env s,
   loadHabitsF env s,
   addHabitF env vr s,
   toggleHabitCompletionF env habit s,
   fun hc hp ht hfail => lhpF_toast env s hc hp ht hfail,
   loadIdealSelfF env s,
   ensureDemoSeedF env s⟩

/-- C8 counterexample: a transport failure of the ideal-self load is
caught but converted into a diagnostic log only — no toast is emitted,
refuting "every Gateway failure ... is converted into a user-visible
toast" and "no Gateway failure is swallowed with only a diagnostic
log". -/
theorem loadIdealSelf_failure_no_toast :
    loadIdealSelf { envAllOk with idealResult := FetchOut.netError } blankApp
      = .ok { blankApp with logs := blankApp.logs + 1 }
    ∧ ({ blankApp with logs := blankApp.logs + 1 } : App).toasts = [] :=
  ⟨rfl, rfl⟩

/-- C8 witness: each failure site at a concrete environment and state. -/
theorem gateway_failure_policy_witness :
    settled (saveIdealSelf { envAllOk with idealSaveResult := FetchOut.netError }
        "v" "f" blankApp)
      = showToast { blankApp with logs := blankApp.logs + 1 }
          "Could not save ideal self" "error"
    ∧ settled (loadJournalEntries { envAllOk with journalResult := FetchOut.netError }
        blankApp)
      = showToast { blankApp with logs := blankApp.logs + 1 }
          "Could not load journal entries" "error"
    ∧ settled (addJournalEntry { envAllOk with journalAddResult := FetchOut.netError }
        { blankApp with journalInput := "note" })
      = addJournalCatch { blankApp with journalInput := "note" }
    ∧ settled (loadHabits { envAllOk with habitsResult := FetchOut.netError } blankApp)
      = loadHabitsCatch blankApp
    ∧ settled (addHabit { envAllOk with createResult := FetchOut.netError } "Run" blankApp)
      = addHabitCatch blankApp
    ∧ settled (toggleHabitCompletion { envAllOk with updateResult := FetchOut.netError }
        (bareHabit 1 "Run") blankApp)
      = toggleCatch blankApp
    ∧ (settled (loadHabitProgress { envAllOk with progressResult := FetchOut.netError }
        { blankApp with currentHabitId := some 1 })).toasts.length
      = ({ blankApp with currentHabitId := some 1 } : App).toasts.length + 1
    ∧ settled (loadIdealSelf { envAllOk with idealResult := FetchOut.netError } blankApp)
      = { blankApp with logs := blankApp.logs + 1 }
    ∧ ensureDemoSeed { envAllOk with habitsResult := FetchOut.netError } blankApp
      = (blankApp, false) :=
  ⟨(gateway_failure_policy { envAllOk with idealSaveResult := FetchOut.netError }
      blankApp "v" "f" (bareHabit 1 "Run")).2.1 (by decide),
   (gateway_failure_policy { envAllOk with journalResult := FetchOut.netError }
      blankApp "v" "f" (bareHabit 1 "Run")).2.2.1 (by decide),
   (gateway_failure_policy { envAllOk with journalAddResult := FetchOut.netError }
      { blankApp with journalInput := "note" } "v" "f" (bareHabit 1 "Run")).2.2.2.1
      (by decide) (by decide),
   (gateway_failure_policy { envAllOk with habitsResult := FetchOut.netError }
      blankApp "v" "f" (bareHabit 1 "Run")).2.2.2.2.1 (by decide),
   (gateway_failure_policy { envAllOk with createResult := FetchOut.netError }
      blankApp "Run" "f" (bareHabit 1 "Run")).2.2.2.2.2.1 (by decide) (by decide),
   (gateway_failure_policy { envAllOk with updateResult := FetchOut.netError }
      blankApp "v" "f" (bareHabit 1 "Run")).2.2.2.2.2.2.1 (by decide),
   (gateway_failure_policy { envAllOk with progressResult := FetchOut.netError }
      { blankApp with currentHabitId := some 1 } "v" "f" (bareHabit 1 "Run")).2.2.2.2.2.2.2.1
      rfl rfl rfl (Or.inl rfl),
   (gateway_failure_policy { envAllOk with idealResult := FetchOut.netError }
      blankApp "v" "f" (bareHabit 1 "Run")).2.2.2.2.2.2.2.2.1 (by decide),
   (gateway_failure_policy { envAllOk with habitsResult := FetchOut.netError }
      blankApp "v" "f" (bareHabit 1 "Run")).2.2.2.2.2.2.2.2.2 (by decide)⟩
